import Mathlib

/-!
Shallow embedding of `bosdyn/client/server_util.py`: response-header
population (`populate_response_header`), large-bytes payload sanitization
(`strip_large_bytes_fields` and the per-type strippers), and the RPC
request/response scope manager (`ResponseContext`).

Protobuf messages become Lean structures; bytes fields become `List Nat`;
timestamps become `Nat`.  The Python code mutates objects in place, so the
embedding passes state explicitly: operations return the updated objects,
and telemetry submission (`rpc_logger.add_protobuf_async`) is modelled by
returning the list of log entries emitted by the operation.
-/

namespace ServerUtil

/-- `bosdyn.api.RequestHeader`: client-assigned metadata echoed verbatim into
the response header. -/
structure RequestHeader where
  client_name : String
  request_timestamp : Nat
deriving DecidableEq, Repr

/-- Status codes of `header_pb2.CommonError` (proto enum; UNSPECIFIED is the
proto default value). -/
inductive CommonErrorCode where
  | CODE_UNSPECIFIED
  | CODE_OK
  | CODE_INTERNAL_SERVER_ERROR
  | CODE_INVALID_REQUEST
deriving DecidableEq, Repr

/-- `header_pb2.CommonError`: status code plus message (proto default `""`). -/
structure CommonError where
  code : CommonErrorCode
  message : String
deriving DecidableEq, Repr

/-- `bosdyn.api.Image`: pixel data plus dimension/format fields. -/
structure Image where
  data : List Nat
  rows : Nat
  cols : Nat
  pixel_format : Nat
deriving DecidableEq, Repr

/-- `bosdyn.api.ImageCapture`: a captured image (`shot` / `image.image`). -/
structure ImageCapture where
  image : Image
  acquisition_time : Nat
deriving DecidableEq, Repr

/-- `image_pb2.ImageResponse`: one entry of a `GetImageResponse`. -/
structure ImageResponse where
  shot : ImageCapture
  status : Nat
deriving DecidableEq, Repr

/-- `image_pb2.GetImageResponse`. -/
structure GetImageResponse where
  image_responses : List ImageResponse
deriving DecidableEq, Repr

/-- `bosdyn.api.LocalGrid`: grid payload plus a non-bytes field. -/
structure LocalGrid where
  data : List Nat
  frame_name : String
deriving DecidableEq, Repr

/-- One entry of `local_grid_pb2.GetLocalGridsResponse`. -/
structure LocalGridResponse where
  local_grid : LocalGrid
  status : Nat
deriving DecidableEq, Repr

/-- `local_grid_pb2.GetLocalGridsResponse`. -/
structure GetLocalGridsResponse where
  local_grid_responses : List LocalGridResponse
deriving DecidableEq, Repr

/-- `data_acquisition_store_pb2.StoreDataRequest`: a raw bytes field plus
other metadata. -/
structure StoreDataRequest where
  data : List Nat
  data_id : Nat
deriving DecidableEq, Repr

/-- `data_acquisition_store_pb2.StoreImageRequest`: `image.image.data` is the
bytes field. -/
structure StoreImageRequest where
  image : ImageCapture
  data_id : Nat
deriving DecidableEq, Repr

/-- One tick of `data_buffer_pb2.RecordSignalTicksRequest`. -/
structure SignalTick where
  data : List Nat
  sequence_id : Nat
deriving DecidableEq, Repr

/-- `data_buffer_pb2.RecordSignalTicksRequest`. -/
structure RecordSignalTicksRequest where
  tick_data : List SignalTick
deriving DecidableEq, Repr

/-- A blob of `data_buffer_pb2.RecordDataBlobsRequest` (and of
`log_annotation_pb2` annotations). -/
structure DataBlob where
  data : List Nat
  channel_name : String
deriving DecidableEq, Repr

/-- `data_buffer_pb2.RecordDataBlobsRequest`. -/
structure RecordDataBlobsRequest where
  blob_data : List DataBlob
deriving DecidableEq, Repr

/-- The `annotations` submessage of `log_annotation_pb2.AddLogAnnotationRequest`. -/
structure LogAnnotations where
  blob_data : List DataBlob
deriving DecidableEq, Repr

/-- `log_annotation_pb2.AddLogAnnotationRequest`. -/
structure AddLogAnnotationRequest where
  annotations : LogAnnotations
deriving DecidableEq, Repr

/-- The concrete payload of a protobuf message: one constructor per message
type in the sanitization allowlist, plus `other` for every type not in the
allowlist (tagged with an arbitrary opaque payload). -/
inductive ProtoBody where
  | getImageResponse (m : GetImageResponse)
  | getLocalGridsResponse (m : GetLocalGridsResponse)
  | storeDataRequest (m : StoreDataRequest)
  | storeImageRequest (m : StoreImageRequest)
  | recordSignalTicksRequest (m : RecordSignalTicksRequest)
  | recordDataBlobsRequest (m : RecordDataBlobsRequest)
  | addLogAnnotationRequest (m : AddLogAnnotationRequest)
  | other (payload : Nat)
deriving DecidableEq, Repr

/-- A protobuf message as seen by `server_util.py`: a `header` field (the
`bosdyn.api.RequestHeader` of a request), a typed body, and the
`DESCRIPTOR.full_name` of its type. -/
structure Message where
  header : RequestHeader
  body : ProtoBody
  fullName : String
deriving DecidableEq, Repr

/-- A packed `google.protobuf.Any` as produced by `header.request.Pack`. -/
structure AnyPack where
  type_url : String
  packed : Message
deriving DecidableEq, Repr

/-- `bosdyn.api.ResponseHeader`. -/
structure ResponseHeader where
  request_received_timestamp : Nat
  request_header : RequestHeader
  error : CommonError
  request : Option AnyPack
deriving DecidableEq, Repr

/-- A freshly constructed `header_pb2.ResponseHeader()`: every field at its
proto default. -/
def ResponseHeader.fresh : ResponseHeader :=
  { request_received_timestamp := 0
    request_header := { client_name := "", request_timestamp := 0 }
    error := { code := CommonErrorCode.CODE_UNSPECIFIED, message := "" }
    request := none }

/-- A gRPC response message: its `bosdyn.api.ResponseHeader` plus its
`DESCRIPTOR.full_name`. -/
structure Response where
  header : ResponseHeader
  fullName : String
deriving DecidableEq, Repr

/-- `strip_image_response`: clears `shot.image.data` of an `ImageResponse`. -/
def strip_image_response (m : ImageResponse) : ImageResponse :=
  { m with shot := { m.shot with image := { m.shot.image with data := [] } } }

/-- `strip_get_image_response`: strips every element of `image_responses`. -/
def strip_get_image_response (m : GetImageResponse) : GetImageResponse :=
  { m with image_responses := m.image_responses.map strip_image_response }

/-- `strip_local_grid_responses`: clears `local_grid.data` of every entry. -/
def strip_local_grid_responses (m : GetLocalGridsResponse) : GetLocalGridsResponse :=
  { m with local_grid_responses :=
      m.local_grid_responses.map fun g => { g with local_grid := { g.local_grid with data := [] } } }

/-- `strip_store_image_request`: clears `image.image.data`. -/
def strip_store_image_request (m : StoreImageRequest) : StoreImageRequest :=
  { m with image := { m.image with image := { m.image.image with data := [] } } }

/-- `strip_store_data_request`: clears the top-level `data` field. -/
def strip_store_data_request (m : StoreDataRequest) : StoreDataRequest :=
  { m with data := [] }

/-- `strip_record_signal_tick`: clears `data` of every tick. -/
def strip_record_signal_tick (m : RecordSignalTicksRequest) : RecordSignalTicksRequest :=
  { m with tick_data := m.tick_data.map fun t => { t with data := [] } }

/-- `strip_record_data_blob`: clears `data` of every blob. -/
def strip_record_data_blob (m : RecordDataBlobsRequest) : RecordDataBlobsRequest :=
  { m with blob_data := m.blob_data.map fun b => { b with data := [] } }

/-- `strip_log_annotations` (source name `strip_log_annotation`): clears
`data` of every blob under `annotations.blob_data`. -/
def strip_log_annotations (m : AddLogAnnotationRequest) : AddLogAnnotationRequest :=
  { m with annotations :=
      { m.annotations with blob_data := m.annotations.blob_data.map fun b => { b with data := [] } } }

/-- `get_bytes_field_allowlist`: maps a message type (here: the `ProtoBody`
constructor) to its stripper, or `none` when the type is not allowlisted. -/
def get_bytes_field_allowlist (b : ProtoBody) : Option (ProtoBody → ProtoBody) :=
  match b with
  | ProtoBody.getImageResponse _ => some (fun x => match x with
      | ProtoBody.getImageResponse m => ProtoBody.getImageResponse (strip_get_image_response m)
      | y => y)
  | ProtoBody.getLocalGridsResponse _ => some (fun x => match x with
      | ProtoBody.getLocalGridsResponse m => ProtoBody.getLocalGridsResponse (strip_local_grid_responses m)
      | y => y)
  | ProtoBody.storeDataRequest _ => some (fun x => match x with
      | ProtoBody.storeDataRequest m => ProtoBody.storeDataRequest (strip_store_data_request m)
      | y => y)
  | ProtoBody.storeImageRequest _ => some (fun x => match x with
      | ProtoBody.storeImageRequest m => ProtoBody.storeImageRequest (strip_store_image_request m)
      | y => y)
  | ProtoBody.recordSignalTicksRequest _ => some (fun x => match x with
      | ProtoBody.recordSignalTicksRequest m => ProtoBody.recordSignalTicksRequest (strip_record_signal_tick m)
      | y => y)
  | ProtoBody.recordDataBlobsRequest _ => some (fun x => match x with
      | ProtoBody.recordDataBlobsRequest m => ProtoBody.recordDataBlobsRequest (strip_record_data_blob m)
      | y => y)
  | ProtoBody.addLogAnnotationRequest _ => some (fun x => match x with
      | ProtoBody.addLogAnnotationRequest m => ProtoBody.addLogAnnotationRequest (strip_log_annotations m)
      | y => y)
  | ProtoBody.other _ => none

/-- `strip_large_bytes_fields`: looks the message type up in the allowlist
and applies the stripper when found; a lookup miss leaves the message
unchanged. -/
def strip_large_bytes_fields (m : Message) : Message :=
  match get_bytes_field_allowlist m.body with
  | some f => { m with body := f m.body }
  | none => m

/-- Python truthiness of the optional `error_msg` argument: `None` and the
empty string are falsy. -/
def strTruthy : Option String → Bool
  | none => false
  | some s => s ≠ ""

/-- `populate_response_header`: builds a fresh header (receipt time, echoed
request header, error code, message only when truthy, a stripped copy of the
request packed into `header.request`) and replaces the response header
wholesale.  State passing: returns the final states of the `response` and
`request` objects. -/
def populate_response_header (now : Nat) (response : Response) (request : Message)
    (error_code : CommonErrorCode) (error_msg : Option String) : Response × Message :=
  let header := ResponseHeader.fresh
  let header := { header with request_received_timestamp := now }
  let header := { header with request_header := request.header }
  let header := { header with error := { header.error with code := error_code } }
  let header :=
    if strTruthy error_msg then
      { header with error := { header.error with message := error_msg.getD "" } }
    else header
  let copied_request := request
  let copied_request := strip_large_bytes_fields copied_request
  let pack : AnyPack :=
    { type_url := "type.googleapis.com/" ++ copied_request.fullName
      packed := copied_request }
  let header := { header with request := some pack }
  ({ response with header := header }, request)

/-- The state of a `ResponseContext` object: the live response and request
objects, whether an `rpc_logger` sink is configured, the channel label root
(source field `channel_prefix`), and whether an `exc_callback` is set. -/
structure ResponseContext where
  response : Response
  request : Message
  has_rpc_logger : Bool
  channel_lead : Option String
  has_exc_callback : Bool
deriving DecidableEq, Repr

/-- What `rpc_logger.add_protobuf_async` was given: a request or a response. -/
inductive LoggedProto where
  | req (m : Message)
  | resp (r : Response)
deriving DecidableEq, Repr

/-- One telemetry submission: the proto and its channel label (or `none`). -/
structure LogEntry where
  proto : LoggedProto
  channel : Option String
deriving DecidableEq, Repr

/-- Exception info as seen by `__exit__`: the exception type name and the
string rendering of the exception value. -/
structure ExcInfo where
  type_name : String
  val : String
deriving DecidableEq, Repr

/-- `ResponseContext.__init__`: stores the arguments and immediately copies
`request.header` into `response.header.request_header`. -/
def ResponseContext.init (response : Response) (request : Message)
    (has_rpc_logger : Bool) (channel_lead : Option String) (has_exc_callback : Bool) :
    ResponseContext :=
  { response := { response with header := { response.header with request_header := request.header } }
    request := request
    has_rpc_logger := has_rpc_logger
    channel_lead := channel_lead
    has_exc_callback := has_exc_callback }

/-- Result of `__enter__`: updated context state, telemetry submissions made,
and the value returned to the `with` body. -/
structure EnterResult where
  ctx : ResponseContext
  logs : List LogEntry
  ret : Response
deriving DecidableEq, Repr

/-- `ResponseContext.__enter__`: stamps `request_received_timestamp` with the
current time and, when a logger is configured, submits the request (as is,
unsanitized) under `channel_prefix + "/" + full_name`, or with no channel
when no label root was configured; returns the response object. -/
def ResponseContext.enter (ctx : ResponseContext) (now : Nat) : EnterResult :=
  let response := { ctx.response with header :=
      { ctx.response.header with request_received_timestamp := now } }
  let ctx := { ctx with response := response }
  let entry : LogEntry :=
    { proto := LoggedProto.req ctx.request
      channel := ctx.channel_lead.map fun p => p ++ "/" ++ ctx.request.fullName }
  let logs := if ctx.has_rpc_logger then [entry] else []
  { ctx := ctx, logs := logs, ret := response }

/-- Result of `__exit__`: updated context state, telemetry submissions made,
the `exc_callback` invocations, and whether the exception is suppressed
(Python: the method returns `None`, so never). -/
structure ExitResult where
  ctx : ResponseContext
  logs : List LogEntry
  callback_calls : List ExcInfo
  suppress : Bool
deriving DecidableEq, Repr

/-- `ResponseContext.__exit__`: defaults a still-UNSPECIFIED error code to
OK; on an uncaught exception overrides the code to INTERNAL_SERVER_ERROR,
sets the message to "[type] value" and invokes the callback; finally, when a
logger is configured, submits the (already finalized) response. -/
def ResponseContext.exit (ctx : ResponseContext) (exc : Option ExcInfo) : ExitResult :=
  let response := ctx.response
  let response :=
    if response.header.error.code = CommonErrorCode.CODE_UNSPECIFIED then
      { response with header := { response.header with error :=
          { response.header.error with code := CommonErrorCode.CODE_OK } } }
    else response
  let response :=
    match exc with
    | some e =>
        { response with header := { response.header with error :=
            { code := CommonErrorCode.CODE_INTERNAL_SERVER_ERROR
              message := "[" ++ e.type_name ++ "] " ++ e.val } } }
    | none => response
  let callback_calls :=
    match exc with
    | some e => if ctx.has_exc_callback then [e] else []
    | none => []
  let ctx := { ctx with response := response }
  let entry : LogEntry :=
    { proto := LoggedProto.resp response
      channel := ctx.channel_lead.map fun p => p ++ "/" ++ response.fullName }
  let logs := if ctx.has_rpc_logger then [entry] else []
  { ctx := ctx, logs := logs, callback_calls := callback_calls, suppress := false }

/-! ### Helper lemmas and sample values -/

lemma map_idem_of_idem {α : Type} (f : α → α) (hf : ∀ x, f (f x) = f x) :
    ∀ l : List α, (l.map f).map f = l.map f := by
  intro l
  induction l with
  | nil => rfl
  | cons a t ih => simp [hf, ih]

lemma append_ne_empty_left (s t : String) (hs : s ≠ "") : s ++ t ≠ "" := by
  intro h
  apply hs
  have hd : s.data ++ t.data = [] := by
    have := congrArg String.data h
    simpa using this
  have hs0 : s.data = [] := (List.append_eq_nil.mp hd).1
  cases s with
  | mk l => simp at hs0; simp [hs0]

lemma bracket_string_ne_empty (a b : String) : ("[" ++ a ++ "] " ++ b) ≠ "" := by
  apply append_ne_empty_left
  apply append_ne_empty_left
  apply append_ne_empty_left
  intro h
  simpa using congrArg String.data h

/-- Sample request header used by witnesses. -/
def sampleHeader : RequestHeader :=
  { client_name := "spot-client", request_timestamp := 7 }

/-- Sample image entry with non-empty data, used by witnesses. -/
def sampleImageResponse (k : Nat) : ImageResponse :=
  { shot := { image := { data := [k, k + 1, k + 2], rows := 480, cols := 640, pixel_format := 3 }
              acquisition_time := 11 }
    status := 1 }

/-- Sample `GetImageResponse` with three entries of non-empty data. -/
def sampleGetImage3 : GetImageResponse :=
  { image_responses := [sampleImageResponse 1, sampleImageResponse 2, sampleImageResponse 3] }

/-- Sample request message (a non-allowlisted type), used by witnesses. -/
def sampleRequest : Message :=
  { header := sampleHeader, body := ProtoBody.other 42
    fullName := "bosdyn.api.GetImageRequest" }

/-- Sample message wrapping `sampleGetImage3`, used by witnesses. -/
def sampleImageMessage : Message :=
  { header := sampleHeader, body := ProtoBody.getImageResponse sampleGetImage3
    fullName := "bosdyn.api.GetImageResponse" }

/-- Sample response with a fresh (all-default) header, used by witnesses. -/
def sampleResponse : Response :=
  { header := ResponseHeader.fresh, fullName := "bosdyn.api.GetImageResponse" }

/-- Sample context, used by witnesses. -/
def sampleCtx : ResponseContext :=
  ResponseContext.init sampleResponse sampleRequest true (some "spot") true

/-- Sample exception info, used by witnesses. -/
def sampleExc : ExcInfo := { type_name := "ValueError", val := "bad input" }

lemma exit_response_code (ctx : ResponseContext) (exc : Option ExcInfo) :
    (ctx.exit exc).ctx.response.header.error.code =
      (match exc with
       | some _ => CommonErrorCode.CODE_INTERNAL_SERVER_ERROR
       | none =>
           if ctx.response.header.error.code = CommonErrorCode.CODE_UNSPECIFIED then
             CommonErrorCode.CODE_OK
           else ctx.response.header.error.code) := by
  cases exc with
  | none =>
      by_cases h : ctx.response.header.error.code = CommonErrorCode.CODE_UNSPECIFIED <;>
        simp [ResponseContext.exit, h]
  | some e => simp [ResponseContext.exit]

lemma exit_code_ne_unspecified (ctx : ResponseContext) (exc : Option ExcInfo) :
    (ctx.exit exc).ctx.response.header.error.code ≠ CommonErrorCode.CODE_UNSPECIFIED := by
  rw [exit_response_code]
  cases exc with
  | none =>
      by_cases h : ctx.response.header.error.code = CommonErrorCode.CODE_UNSPECIFIED <;>
        simp [h]
  | some e => simp

/-! ### Claim theorems -/

/-- C1: for every request, response and status code C ≠ UNSPECIFIED,
`populate_response_header` leaves `header.error.code = C`,
`header.request_header` equal to the request's header, and replaces the
header wholesale with a freshly constructed one: its receipt timestamp is
the current time and its `request` field holds the type-tagged sanitized
copy of the request. -/
theorem populate_response_header_spec (now : Nat) (resp : Response) (req : Message)
    (C : CommonErrorCode) (msg : Option String)
    (hC : C ≠ CommonErrorCode.CODE_UNSPECIFIED) :
    ((populate_response_header now resp req C msg).1).header.error.code = C ∧
    ((populate_response_header now resp req C msg).1).header.request_header = req.header ∧
    ((populate_response_header now resp req C msg).1).header.request_received_timestamp = now ∧
    ((populate_response_header now resp req C msg).1).header.request =
      some { type_url := "type.googleapis.com/" ++ (strip_large_bytes_fields req).fullName
             packed := strip_large_bytes_fields req } := by
  by_cases h : strTruthy msg = true <;>
    simp [populate_response_header, h]

/-- Witness for C1 at a concrete request, response and status code. -/
theorem populate_response_header_spec_witness :
    CommonErrorCode.CODE_OK ≠ CommonErrorCode.CODE_UNSPECIFIED ∧
    ((populate_response_header 3 sampleResponse sampleRequest
        CommonErrorCode.CODE_OK none).1).header.error.code = CommonErrorCode.CODE_OK :=
  ⟨by decide,
   (populate_response_header_spec 3 sampleResponse sampleRequest
      CommonErrorCode.CODE_OK none (by decide)).1⟩

/-- C4: `populate_response_header` never mutates the request object: the
request state after the call is the request passed in (sanitization acts
only on the embedded copy). -/
theorem populate_response_header_preserves_request (now : Nat) (resp : Response)
    (req : Message) (C : CommonErrorCode) (msg : Option String) :
    (populate_response_header now resp req C msg).2 = req := by
  simp [populate_response_header]

/-- C10: calling `populate_response_header` with the empty string as error
message behaves exactly like calling it with no message, and in that case
`header.error.message` is left at the proto default (unset). -/
theorem populate_response_header_empty_msg (now : Nat) (resp : Response)
    (req : Message) (C : CommonErrorCode) :
    populate_response_header now resp req C (some "") =
      populate_response_header now resp req C none ∧
    ((populate_response_header now resp req C none).1).header.error.message = "" := by
  constructor
  · simp [populate_response_header, strTruthy]
  · simp [populate_response_header, strTruthy, ResponseHeader.fresh]

/-- C2: when the scope exits (normally or with a fault) the final error code
is never UNSPECIFIED: it is OK when no code was set and no fault occurred,
the explicitly set code when one was set and no fault occurred, and the
internal-fault code when a fault escaped the body. -/
theorem response_context_exit_code_resolved (ctx : ResponseContext)
    (exc : Option ExcInfo) :
    (ctx.exit exc).ctx.response.header.error.code ≠ CommonErrorCode.CODE_UNSPECIFIED ∧
    (ctx.exit exc).ctx.response.header.error.code =
      (match exc with
       | some _ => CommonErrorCode.CODE_INTERNAL_SERVER_ERROR
       | none =>
           if ctx.response.header.error.code = CommonErrorCode.CODE_UNSPECIFIED then
             CommonErrorCode.CODE_OK
           else ctx.response.header.error.code) :=
  ⟨exit_code_ne_unspecified ctx exc, exit_response_code ctx exc⟩

/-- Witness for C2: exiting the sample context without a fault and with the
code still unset resolves it (to OK, in particular not UNSPECIFIED). -/
theorem response_context_exit_code_resolved_witness :
    (ResponseContext.exit sampleCtx none).ctx.response.header.error.code ≠
      CommonErrorCode.CODE_UNSPECIFIED :=
  (response_context_exit_code_resolved sampleCtx none).1

/-- C3: when the body raised a fault, exit sets INTERNAL_SERVER_ERROR
(overriding any previous code), sets the message to the non-empty
"[kind] description" string, invokes the callback exactly once when one is
configured (never otherwise), and does not suppress the fault. -/
theorem response_context_exit_fault_path (ctx : ResponseContext) (e : ExcInfo) :
    (ctx.exit (some e)).ctx.response.header.error.code =
      CommonErrorCode.CODE_INTERNAL_SERVER_ERROR ∧
    (ctx.exit (some e)).ctx.response.header.error.message =
      "[" ++ e.type_name ++ "] " ++ e.val ∧
    (ctx.exit (some e)).ctx.response.header.error.message ≠ "" ∧
    (ctx.exit (some e)).callback_calls =
      (if ctx.has_exc_callback then [e] else []) ∧
    (ctx.exit (some e)).suppress = false := by
  refine ⟨?_, ?_, ?_, ?_, ?_⟩
  · simp [ResponseContext.exit]
  · simp [ResponseContext.exit]
  · have h : (ctx.exit (some e)).ctx.response.header.error.message =
        "[" ++ e.type_name ++ "] " ++ e.val := by simp [ResponseContext.exit]
    rw [h]
    exact bracket_string_ne_empty e.type_name e.val
  · simp [ResponseContext.exit]
  · simp [ResponseContext.exit]

/-- Witness for C3 at the sample context and exception. -/
theorem response_context_exit_fault_path_witness :
    (ResponseContext.exit sampleCtx (some sampleExc)).ctx.response.header.error.code =
      CommonErrorCode.CODE_INTERNAL_SERVER_ERROR :=
  (response_context_exit_fault_path sampleCtx sampleExc).1

/-- C7: constructing the context and entering the scope copies the request
header into the response header, stamps the receipt timestamp with the
current time, returns the response object, and, when a logger is
configured, submits the original request unmodified under
"channel root" + "/" + the request type's full name (label unset when no
root is configured); without a logger nothing is submitted. -/
theorem response_context_enter_spec (resp : Response) (req : Message) (hl : Bool)
    (root : Option String) (cb : Bool) (now : Nat) :
    ((ResponseContext.init resp req hl root cb).enter now).ctx.response.header.request_header =
      req.header ∧
    ((ResponseContext.init resp req hl root cb).enter now).ctx.response.header.request_received_timestamp =
      now ∧
    ((ResponseContext.init resp req hl root cb).enter now).ret =
      ((ResponseContext.init resp req hl root cb).enter now).ctx.response ∧
    ((ResponseContext.init resp req hl root cb).enter now).logs =
      (if hl then
        [{ proto := LoggedProto.req req
           channel := root.map fun p => p ++ "/" ++ req.fullName }]
       else []) := by
  refine ⟨?_, ?_, ?_, ?_⟩
  · simp [ResponseContext.init, ResponseContext.enter]
  · simp [ResponseContext.init, ResponseContext.enter]
  · simp [ResponseContext.init, ResponseContext.enter]
  · cases hl <;> simp [ResponseContext.init, ResponseContext.enter]

/-- C8: the response value submitted to telemetry on exit is exactly the
finalized response (code resolution happens before submission), so every
logged response carries a non-UNSPECIFIED code. -/
theorem response_context_exit_logs_finalized (ctx : ResponseContext)
    (exc : Option ExcInfo) :
    (ctx.exit exc).logs =
      (if ctx.has_rpc_logger then
        [{ proto := LoggedProto.resp (ctx.exit exc).ctx.response
           channel := ctx.channel_lead.map
             fun p => p ++ "/" ++ (ctx.exit exc).ctx.response.fullName }]
       else []) ∧
    (∀ entry, entry ∈ (ctx.exit exc).logs → ∀ r, entry.proto = LoggedProto.resp r →
      r.header.error.code ≠ CommonErrorCode.CODE_UNSPECIFIED) := by
  constructor
  · cases h : ctx.has_rpc_logger <;>
      simp [ResponseContext.exit, h]
  · intro entry hmem r hr
    have hlog : entry ∈ (if ctx.has_rpc_logger then
        [{ proto := LoggedProto.resp (ctx.exit exc).ctx.response
           channel := ctx.channel_lead.map
             fun p => p ++ "/" ++ (ctx.exit exc).ctx.response.fullName : LogEntry }]
       else []) := by
      cases h : ctx.has_rpc_logger <;>
        simp [ResponseContext.exit, h] at hmem ⊢ <;> simp [hmem]
    cases h : ctx.has_rpc_logger with
    | false => simp [h] at hlog
    | true =>
        simp [h] at hlog
        rw [hlog] at hr
        simp at hr
        rw [← hr]
        exact exit_code_ne_unspecified ctx exc

/-- Witness for C8: the sample context logs the finalized response. -/
theorem response_context_exit_logs_finalized_witness :
    (ResponseContext.exit sampleCtx none).logs =
      [{ proto := LoggedProto.resp (ResponseContext.exit sampleCtx none).ctx.response
         channel := (sampleCtx.channel_lead).map
           fun p => p ++ "/" ++ (ResponseContext.exit sampleCtx none).ctx.response.fullName }] := by
  have h := (response_context_exit_logs_finalized sampleCtx none).1
  simpa [sampleCtx, ResponseContext.init] using h

lemma strip_image_response_idem (r : ImageResponse) :
    strip_image_response (strip_image_response r) = strip_image_response r := rfl

lemma strip_get_image_response_idem (g : GetImageResponse) :
    strip_get_image_response (strip_get_image_response g) = strip_get_image_response g :=
  congrArg GetImageResponse.mk
    (map_idem_of_idem strip_image_response strip_image_response_idem g.image_responses)

lemma strip_local_grid_responses_idem (g : GetLocalGridsResponse) :
    strip_local_grid_responses (strip_local_grid_responses g) = strip_local_grid_responses g :=
  congrArg GetLocalGridsResponse.mk
    (map_idem_of_idem
      (fun t : LocalGridResponse => { t with local_grid := { t.local_grid with data := [] } })
      (fun _ => rfl) g.local_grid_responses)

lemma strip_record_signal_tick_idem (g : RecordSignalTicksRequest) :
    strip_record_signal_tick (strip_record_signal_tick g) = strip_record_signal_tick g :=
  congrArg RecordSignalTicksRequest.mk
    (map_idem_of_idem (fun t : SignalTick => { t with data := [] }) (fun _ => rfl) g.tick_data)

lemma strip_record_data_blob_idem (g : RecordDataBlobsRequest) :
    strip_record_data_blob (strip_record_data_blob g) = strip_record_data_blob g :=
  congrArg RecordDataBlobsRequest.mk
    (map_idem_of_idem (fun b : DataBlob => { b with data := [] }) (fun _ => rfl) g.blob_data)

lemma strip_log_annotations_idem (g : AddLogAnnotationRequest) :
    strip_log_annotations (strip_log_annotations g) = strip_log_annotations g :=
  congrArg (fun l => AddLogAnnotationRequest.mk (LogAnnotations.mk l))
    (map_idem_of_idem (fun b : DataBlob => { b with data := [] }) (fun _ => rfl)
      g.annotations.blob_data)

/-- C5: `strip_large_bytes_fields` is idempotent on every message — for the
allowlisted types stripping an already-stripped message is a no-op, and
non-allowlisted types pass through unmodified. -/
theorem strip_large_bytes_fields_idem (m : Message) :
    strip_large_bytes_fields (strip_large_bytes_fields m) = strip_large_bytes_fields m := by
  obtain ⟨h, b, n⟩ := m
  cases b with
  | getImageResponse g =>
      simp [strip_large_bytes_fields, get_bytes_field_allowlist, strip_get_image_response_idem]
  | getLocalGridsResponse g =>
      simp [strip_large_bytes_fields, get_bytes_field_allowlist, strip_local_grid_responses_idem]
  | storeDataRequest g =>
      simp [strip_large_bytes_fields, get_bytes_field_allowlist, strip_store_data_request]
  | storeImageRequest g =>
      simp [strip_large_bytes_fields, get_bytes_field_allowlist, strip_store_image_request]
  | recordSignalTicksRequest g =>
      simp [strip_large_bytes_fields, get_bytes_field_allowlist, strip_record_signal_tick_idem]
  | recordDataBlobsRequest g =>
      simp [strip_large_bytes_fields, get_bytes_field_allowlist, strip_record_data_blob_idem]
  | addLogAnnotationRequest g =>
      simp [strip_large_bytes_fields, get_bytes_field_allowlist, strip_log_annotations_idem]
  | other p =>
      simp [strip_large_bytes_fields, get_bytes_field_allowlist]

/-- C6: on a `GetImageResponse` with N image entries, stripping clears the
`data` field of every entry, keeps the number of entries at N, and leaves
every other field of each entry (dimensions, format, acquisition time,
status) unchanged. -/
theorem get_image_response_strip_spec (m : Message) (g : GetImageResponse)
    (hm : m.body = ProtoBody.getImageResponse g) :
    (strip_large_bytes_fields m).body =
      ProtoBody.getImageResponse (strip_get_image_response g) ∧
    (strip_get_image_response g).image_responses.length = g.image_responses.length ∧
    (∀ i : Nat, ((strip_get_image_response g).image_responses[i]?).map
        (fun r => r.shot.image.data) =
      (g.image_responses[i]?).map (fun _ => ([] : List Nat))) ∧
    (∀ i : Nat, ((strip_get_image_response g).image_responses[i]?).map
        (fun r => (r.shot.image.rows, r.shot.image.cols, r.shot.image.pixel_format,
          r.shot.acquisition_time, r.status)) =
      (g.image_responses[i]?).map
        (fun r => (r.shot.image.rows, r.shot.image.cols, r.shot.image.pixel_format,
          r.shot.acquisition_time, r.status))) := by
  obtain ⟨h, b, n⟩ := m
  simp only at hm
  subst hm
  refine ⟨?_, ?_, ?_, ?_⟩
  · simp [strip_large_bytes_fields, get_bytes_field_allowlist]
  · simp [strip_get_image_response]
  · intro i
    simp [strip_get_image_response]
    cases g.image_responses[i]? <;> simp [strip_image_response]
  · intro i
    simp [strip_get_image_response]
    cases g.image_responses[i]? <;> simp [strip_image_response]

/-- Witness for C6 at a concrete message with three non-empty entries. -/
theorem get_image_response_strip_spec_witness :
    (strip_get_image_response sampleGetImage3).image_responses.length =
      sampleGetImage3.image_responses.length :=
  (get_image_response_strip_spec sampleImageMessage sampleGetImage3 rfl).2.1

end ServerUtil
